import Mathlib

/-!
Verification of `examples/train_from_scratch.py` (FARM repository).

The script is a linear orchestration pipeline: it parses one CLI flag,
seeds the RNGs, opens an MLflow run record, builds a BERT tokenizer from a
vocabulary file, a masked-LM data processor and streaming data silo, a
from-scratch BERT encoder with two prediction heads, an optimizer with a
linear-warmup schedule, a trainer, runs training and saves model and
processor to a save directory.

Pure wiring (which constructor receives which argument, in which order) is
embedded directly from the script.  Behavior of FARM library functions that
are repository code not present under `src/` (`set_all_seeds`,
`initialize_device_settings`, `initialize_optimizer`, the streaming data
loader length, `model.save` / `processor.save`) is modelled from the spec;
each such definition carries a doc comment saying so.
-/

set_option autoImplicit false

namespace TrainFromScratch

/-! ## Script constants (literal hyperparameters fixed by the script) -/

/-- `set_all_seeds(seed=39)` -/
def seed : Nat := 39

/-- `evaluate_every = 10000` -/
def evaluate_every : Nat := 10000

/-- `save_dir = Path("saved_models/train_from_scratch")` -/
def save_dir : String := "saved_models/train_from_scratch"

/-- `data_dir = Path("data/lm_finetune_nips")` -/
def data_dir : String := "data/lm_finetune_nips"

/-- `train_filename = "train.txt"` -/
def train_filename : String := "train.txt"

/-- `max_seq_len = 128` -/
def max_seq_len : Nat := 128

/-- `batch_size = 60` -/
def batch_size : Nat := 60

/-- `grad_acc = 4` -/
def grad_acc : Nat := 4

/-- `learning_rate = 0.0001` -/
def learning_rate : Rat := 1 / 10000

/-- `warmup_proportion = 0.01` -/
def warmup_proportion : Rat := 1 / 100

/-- `n_epochs = 1` -/
def n_epochs : Nat := 1

/-- `vocab_file = "bert-base-uncased-vocab.txt"` -/
def vocab_file : String := "bert-base-uncased-vocab.txt"

/-- `use_amp = None` — the mixed-precision flag is set to the inert value
(the commented-out alternative was `"O2"`). -/
def use_amp : Option String := none

/-! ## Tokenizer

Model of the external `transformers.tokenization_bert.BertTokenizer`
interface as used by the script: it owns the vocabulary loaded from the
vocabulary file, and `vocab_size` is the number of entries. -/

structure BertTokenizer where
  vocab : List String
  do_lower_case : Bool
deriving DecidableEq, Repr

def BertTokenizer.vocab_size (t : BertTokenizer) : Nat := t.vocab.length

/-- `BertTokenizer(data_dir/vocab_file, do_lower_case=True)`: the tokenizer
built from the lines of the vocabulary file. -/
def makeTokenizer (vocab : List String) : BertTokenizer :=
  { vocab := vocab, do_lower_case := true }

/-! ## Data processor and silo (constructor arguments from the script) -/

structure BertStyleLMProcessor where
  data_dir : String
  tokenizer : BertTokenizer
  max_seq_len : Nat
  train_filename : String
  dev_filename : Option String
  test_filename : Option String
deriving DecidableEq, Repr

/-- Step 2 of the script: the processor constructor call, with
`dev_filename=None` and `test_filename=None` exactly as written. -/
def makeProcessor (t : BertTokenizer) : BertStyleLMProcessor :=
  { data_dir := data_dir
    tokenizer := t
    max_seq_len := max_seq_len
    train_filename := train_filename
    dev_filename := none
    test_filename := none }

structure StreamingDataSilo where
  processor : BertStyleLMProcessor
  batch_size : Nat
  distributed : Bool
deriving DecidableEq, Repr

/-- Step 3 of the script: `StreamingDataSilo(processor=..., batch_size=batch_size,
distributed=True)`. -/
def makeDataSilo (p : BertStyleLMProcessor) : StreamingDataSilo :=
  { processor := p, batch_size := batch_size, distributed := true }

/-! ## Device settings -/

/-- The device handle returned by device initialization. -/
inductive Device where
  | cudaDefault
  | cuda (rank : Int)
deriving DecidableEq, Repr

/-- Modelled from the spec: device initialization selects the accelerator
for the process — the default device when `local_rank` is `-1`, the
rank-indexed device otherwise — and reports the GPU count; the `use_amp`
flag is forwarded to it unchanged. -/
def initDeviceSettings (use_cuda : Bool) (local_rank : Int) (amp : Option String) :
    Device × Nat :=
  match use_cuda, amp with
  | _, _ => (if local_rank = -1 then .cudaDefault else .cuda local_rank, 1)

/-! ## Model assembly (step 4 of the script) -/

/-- The base encoder handle: `LanguageModel.from_scratch("bert", vocab_size)`
records the architecture name and the vocabulary size it is sized to. -/
structure LanguageModelS where
  model_type : String
  vocab_size : Nat
deriving DecidableEq, Repr

def LanguageModel.from_scratch (model_type : String) (vocab_size : Nat) :
    LanguageModelS :=
  { model_type := model_type, vocab_size := vocab_size }

/-- `BertLMHead(768, tokenizer.vocab_size)`: hidden size and output-layer
width (the masked-LM prediction head). -/
structure BertLMHead where
  hidden_size : Nat
  vocab_size : Nat
deriving DecidableEq, Repr

/-- `NextSentenceHead([768, 2], task_name="nextsentence")`. -/
structure NextSentenceHead where
  layer_dims : List Nat
  task_name : String
deriving DecidableEq, Repr

/-- The `AdaptiveModel(...)` constructor call.  The script passes the list
`[lm_prediction_head, next_sentence_head]` as `prediction_heads`; the two
heads are kept as two fields here since their types differ.  The
`device=device` argument of the call is the device returned by device
initialization, so it depends on `--local_rank`. -/
structure AdaptiveModel where
  language_model : LanguageModelS
  lm_head : BertLMHead
  ns_head : NextSentenceHead
  embeds_dropout_prob : Rat
  lm_output_types : List String
  device : Device
deriving DecidableEq, Repr

/-- Step 4 of the script, exactly as wired: encoder from scratch sized to
`tokenizer.vocab_size`, LM head `BertLMHead(768, tokenizer.vocab_size)`,
next-sentence head `NextSentenceHead([768, 2], "nextsentence")`, dropout
0.1, output types `["per_token", "per_sequence"]`, and the device obtained
from device initialization. -/
def assembleModel (t : BertTokenizer) (dev : Device) : AdaptiveModel :=
  { language_model := LanguageModel.from_scratch "bert" t.vocab_size
    lm_head := { hidden_size := 768, vocab_size := t.vocab_size }
    ns_head := { layer_dims := [768, 2], task_name := "nextsentence" }
    embeds_dropout_prob := 1 / 10
    lm_output_types := ["per_token", "per_sequence"]
    device := dev }

/-- C1: at model-assembly time the masked-LM head's output width and the
base encoder's vocabulary size both equal the tokenizer's vocabulary size,
for any tokenizer supplied (and whatever device the model is placed on). -/
theorem output_layer_width_eq_tokenizer_vocab_size (t : BertTokenizer) (dev : Device) :
    (assembleModel t dev).lm_head.vocab_size = t.vocab_size ∧
    (assembleModel t dev).language_model.vocab_size = t.vocab_size :=
  ⟨rfl, rfl⟩

/-! ## Seeding and parameter initialization (C2)

`set_all_seeds` lives in `farm.utils` and the random parameter
initialization inside `AdaptiveModel` / `LanguageModel.from_scratch` lives
in `farm.modeling`; neither file is under `src/`, so both are modelled from
the spec. -/

/-- A linear congruential step, our model of one draw from the framework's
seeded pseudo-random number generator. -/
def lcgNext (s : Nat) : Nat := (1103515245 * s + 12345) % 2 ^ 31

/-- `n` successive pseudo-random draws starting from state `s`. -/
def drawParams : Nat → Nat → List Nat
  | 0, _ => []
  | n + 1, s => lcgNext s :: drawParams n (lcgNext s)

/-- Modelled from the spec: `set_all_seeds` ("seed all random number
generators") overwrites every generator's state with state derived from the
seed alone, discarding whatever ambient RNG state the process had before. -/
def set_all_seeds (ambient : Nat) (s : Nat) : Nat :=
  match ambient with
  | _ => s

/-- Modelled from the spec: model assembly performs "random init, not
pretrained" — the initial parameters are drawn from the seeded RNG, with
the parameter count determined by the configuration (vocabulary size and
the fixed head dimensions). -/
def initModelParams (rng : Nat) (t : BertTokenizer) : List Nat :=
  drawParams (t.vocab_size * 768 + 768 * t.vocab_size + 768 * 2) rng

/-- The initial parameters produced by one run of the orchestrator that
started with ambient RNG state `ambient`: `set_all_seeds(seed=39)` followed
by model construction on tokenizer `t`. -/
def runInitialParams (ambient : Nat) (t : BertTokenizer) : List Nat :=
  initModelParams (set_all_seeds ambient seed) t

/-- C2: for the fixed seed 39 set by the script, two runs with identical
configuration (same tokenizer, hence same model sizes) produce identical
initial model parameters, whatever ambient RNG states the two processes
started from. -/
theorem seed_determinism_two_runs (a1 a2 : Nat) (t : BertTokenizer) :
    runInitialParams a1 t = runInitialParams a2 t :=
  rfl

/-! ## Data loader length and optimizer step count (C3)

`StreamingDataSilo.get_data_loader("train")` and `initialize_optimizer`
are in `farm.data_handler.data_silo` and `farm.modeling.optimization`,
not under `src/`; both are modelled from the spec. -/

/-- Modelled from the spec: the distributed streaming train loader yields
`ceil(dataset_size / (batch_size * world_size))` batches — the value of
`len(stream_data_silo.get_data_loader("train"))`. -/
def trainLoaderLen (dataset_size bs world_size : Nat) : Nat :=
  (dataset_size + bs * world_size - 1) / (bs * world_size)

/-- Modelled from the spec: `initialize_optimizer` sizes the warmup
schedule to the total optimizer step count — the batches per epoch divided
by the gradient-accumulation steps (integer division, since an incomplete
accumulation window performs no optimizer step), times the epoch count. -/
def optimizationSteps (n_batches grad_acc_steps epochs : Nat) : Nat :=
  n_batches / grad_acc_steps * epochs

/-- C3: with `batch_size = 60`, `n_epochs = 1` and `grad_acc = 4` as fixed
by the script, and `n_batches` taken from the training data loader, the
configured optimizer step count equals
`ceil(dataset_size / (batch_size * world_size)) * epochs / grad_acc`
within rounding: scaling the step count back up by `grad_acc` recovers
`n_batches * n_epochs` to within one accumulation window. -/
theorem total_optimizer_steps_within_rounding (ds ws : Nat) (_h : 0 < ws) :
    grad_acc * optimizationSteps (trainLoaderLen ds batch_size ws) grad_acc n_epochs
      ≤ trainLoaderLen ds batch_size ws * n_epochs ∧
    trainLoaderLen ds batch_size ws * n_epochs
      < grad_acc * (optimizationSteps (trainLoaderLen ds batch_size ws) grad_acc n_epochs + 1) := by
  have hnb := Nat.div_add_mod (trainLoaderLen ds batch_size ws) 4
  have hlt : trainLoaderLen ds batch_size ws % 4 < 4 :=
    Nat.mod_lt _ (by norm_num)
  simp only [optimizationSteps, grad_acc, n_epochs, Nat.mul_one]
  omega

/-- Witness for C3 at dataset size 1000 and world size 2: the loader yields
`ceil(1000/120) = 9` batches, the optimizer is configured for `9 / 4 = 2`
steps, and `4 * 2 ≤ 9 < 4 * 3`. -/
theorem total_optimizer_steps_within_rounding_witness :
    grad_acc * optimizationSteps (trainLoaderLen 1000 batch_size 2) grad_acc n_epochs
      ≤ trainLoaderLen 1000 batch_size 2 * n_epochs ∧
    trainLoaderLen 1000 batch_size 2 * n_epochs
      < grad_acc * (optimizationSteps (trainLoaderLen 1000 batch_size 2) grad_acc n_epochs + 1) :=
  total_optimizer_steps_within_rounding 1000 2 (by decide)

/-! ## Command-line parsing (C6) -/

/-- The args object returned by `parse_arguments`. -/
structure Args where
  local_rank : Int
deriving DecidableEq, Repr

/-- One step of the decimal accumulator behind [strToInt], our model of
Python's `int()` conversion that `argparse` applies for `type=int`. -/
def digitsToNatAux : List Char → Nat → Option Nat
  | [], acc => some acc
  | c :: cs, acc =>
    if c.isDigit then digitsToNatAux cs (acc * 10 + (c.toNat - 48)) else none

/-- The decimal value of a nonempty digit string, `none` otherwise. -/
def digitsToNat : List Char → Option Nat
  | [] => none
  | c :: cs => digitsToNatAux (c :: cs) 0

/-- Model of Python's `int()` on a string: an optional leading minus sign
followed by decimal digits. -/
def strToInt (s : String) : Option Int :=
  match s.toList with
  | '-' :: cs => (digitsToNat cs).map (fun n => -(n : Int))
  | cs => (digitsToNat cs).map (fun n => (n : Int))

/-- Model of the `argparse` parser built in `parse_arguments`: a single
registered option `--local_rank` of type `int` with default `-1`.  Tokens
are consumed left to right; `--local_rank` must be followed by an integer
token, and any other token is rejected as unrecognized (the space-separated
`--flag value` form is modelled; `argparse`'s auto-generated help option is
outside the script's own interface). -/
def parseArgsLoop : List String → Int → Except String Int
  | [], acc => Except.ok acc
  | tok :: rest, _acc =>
    if tok = "--local_rank" then
      match rest with
      | [] => Except.error "argument --local_rank: expected one argument"
      | s :: rest2 =>
        match strToInt s with
        | some v => parseArgsLoop rest2 v
        | none => Except.error ("argument --local_rank: invalid int value: " ++ s)
    else
      Except.error ("unrecognized arguments: " ++ tok)

/-- `parse_arguments()` of the script, as a function of `argv`. -/
def parse_arguments (argv : List String) : Except String Args :=
  (parseArgsLoop argv (-1)).map (fun v => { local_rank := v })

/-- C6: the CLI recognizes exactly one flag, `--local_rank`, of integer
type with default `-1`: parsing an empty command line yields
`local_rank = -1`, parsing `--local_rank s` for an integer token `s`
yields the supplied integer, and any other flag token is rejected. -/
theorem cli_single_flag_local_rank (s : String) (v : Int) (tok : String)
    (hs : strToInt s = some v) (htok : tok ≠ "--local_rank") :
    parse_arguments [] = Except.ok { local_rank := -1 } ∧
    parse_arguments ["--local_rank", s] = Except.ok { local_rank := v } ∧
    parse_arguments [tok] = Except.error ("unrecognized arguments: " ++ tok) := by
  refine ⟨rfl, ?_, ?_⟩
  · simp [parse_arguments, parseArgsLoop, hs, Except.map]
  · simp [parse_arguments, parseArgsLoop, htok, Except.map]

/-- Witness for C6 at `s = "7"`, `v = 7`, `tok = "--foo"`. -/
theorem cli_single_flag_local_rank_witness :
    parse_arguments [] = Except.ok { local_rank := -1 } ∧
    parse_arguments ["--local_rank", "7"] = Except.ok { local_rank := 7 } ∧
    parse_arguments ["--foo"] = Except.error ("unrecognized arguments: " ++ "--foo") :=
  cli_single_flag_local_rank "7" 7 "--foo" (by decide) (by decide)

/-! ## Persistence: save and load (C5)

`model.save` and `processor.save` live in `farm.modeling.adaptive_model`
and `farm.data_handler.processor`, not under `src/`; the serialization is
modelled from the spec ("serialize model weights and processor/tokenizer
config to disk").  File contents are kept structured: byte-level formats
are the external libraries' concern. -/

inductive FileContent where
  | modelWeights (shapes : List (List Nat)) (params : List Nat)
  | processorCfg (vocab : List String) (do_lower_case : Bool) (max_seq_len : Nat)
deriving DecidableEq, Repr

/-- A filesystem: an association list from paths to file contents, most
recent write first. -/
def FS := List (String × FileContent)

/-- Writing a file shadows any earlier content at the same path. -/
def writeFile (fs : FS) (path : String) (c : FileContent) : FS :=
  (path, c) :: fs

def readFile : FS → String → Option FileContent
  | [], _ => none
  | (p, c) :: rest, path => if p = path then some c else readFile rest path

/-- The parameter-tensor shapes of the assembled model: encoder embedding
matrix, masked-LM head output layer, next-sentence head layers. -/
def AdaptiveModel.paramShapes (m : AdaptiveModel) : List (List Nat) :=
  [[m.language_model.vocab_size, 768],
   [m.lm_head.hidden_size, m.lm_head.vocab_size],
   m.ns_head.layer_dims]

/-- Modelled from the spec: `model.save(save_dir)` serializes the model
weights (their shapes and values) into the save directory. -/
def modelSaveFS (m : AdaptiveModel) (params : List Nat) (dir : String) (fs : FS) : FS :=
  writeFile fs (dir ++ "/language_model.bin") (.modelWeights m.paramShapes params)

/-- Modelled from the spec: `processor.save(save_dir)` serializes the
processor/tokenizer configuration — vocabulary, casing, sequence length —
into the save directory. -/
def processorSaveFS (p : BertStyleLMProcessor) (dir : String) (fs : FS) : FS :=
  writeFile fs (dir ++ "/processor_config.json")
    (.processorCfg p.tokenizer.vocab p.tokenizer.do_lower_case p.max_seq_len)

/-- Modelled from the spec: reloading the processor from the save directory
rebuilds a tokenizer from the serialized vocabulary and casing flag. -/
def loadTokenizer (dir : String) (fs : FS) : Option BertTokenizer :=
  match readFile fs (dir ++ "/processor_config.json") with
  | some (.processorCfg v lc _) => some { vocab := v, do_lower_case := lc }
  | _ => none

/-- Modelled from the spec: reloading the model from the save directory
recovers the serialized parameter shapes. -/
def loadModelShapes (dir : String) (fs : FS) : Option (List (List Nat)) :=
  match readFile fs (dir ++ "/language_model.bin") with
  | some (.modelWeights shapes _) => some shapes
  | _ => none

/-- C5: saving the model and then the processor to the script's save
directory (steps 8a and 8b of the script) and reloading from it yields a
tokenizer with the same vocabulary and a model with the same parameter
shapes, over any prior filesystem state (and whatever device the model was
placed on). -/
theorem save_load_roundtrip (t : BertTokenizer) (dev : Device) (params : List Nat) (fs : FS) :
    (loadTokenizer save_dir
        (processorSaveFS (makeProcessor t) save_dir
          (modelSaveFS (assembleModel t dev) params save_dir fs))).map
      BertTokenizer.vocab = some t.vocab ∧
    loadModelShapes save_dir
        (processorSaveFS (makeProcessor t) save_dir
          (modelSaveFS (assembleModel t dev) params save_dir fs)) =
      some (assembleModel t dev).paramShapes := by
  constructor
  · rfl
  · rfl

/-! ## The orchestrator as a whole: result record and event trace -/

/-- One observable call made by `train_from_scratch`, in program order,
carrying the arguments the script passes at that call site. -/
inductive Event where
  | logConfig (fmt datefmt : String)
  | mlflowLogger (tracking_uri : String)
  | mlflowInitExperiment (experiment_name run_name : String)
  | setAllSeeds (s : Nat)
  | deviceInit (use_cuda : Bool) (local_rank : Int) (amp : Option String)
  | tokenizerInit (vocab_path : String) (do_lower_case : Bool)
  | processorInit (dir fname : String) (dev_fname test_fname : Option String) (seq_len : Nat)
  | dataSiloInit (bs : Nat) (distributed : Bool)
  | lmFromScratch (model_type : String) (vocab_size : Nat)
  | lmHeadInit (hidden vocab : Nat)
  | nsHeadInit (dims : List Nat) (task : String)
  | adaptiveModelInit (dropout : Rat) (output_types : List String) (dev : Device)
  | optimizerInit (local_rank : Int) (amp : Option String) (grad_acc_steps : Nat) (distributed : Bool) (dev : Device)
  | trainerCreate (eval_every : Nat) (amp : Option String) (checkpoint_every : Option Nat) (dev : Device) (n_gpu : Nat)
  | trainRun
  | modelSave (dir : String)
  | processorSave (dir : String)
deriving DecidableEq, Repr

/-- What one run of the orchestrator constructs, plus the trace of calls it
makes. -/
structure RunResult where
  device : Device
  n_gpu : Nat
  tokenizer : BertTokenizer
  processor : BertStyleLMProcessor
  data_silo : StreamingDataSilo
  model : AdaptiveModel
  trace : List Event
deriving DecidableEq, Repr

/-- The body of `train_from_scratch()`, embedded stage by stage in the
script's order, as a function of the parsed args and of the lines of the
vocabulary file. -/
def train_from_scratch (args : Args) (vocab : List String) : RunResult :=
  let dev := initDeviceSettings true args.local_rank use_amp
  let tok := makeTokenizer vocab
  let proc := makeProcessor tok
  let silo := makeDataSilo proc
  let model := assembleModel tok dev.1
  { device := dev.1
    n_gpu := dev.2
    tokenizer := tok
    processor := proc
    data_silo := silo
    model := model
    trace :=
      [ .logConfig "%(asctime)s - %(levelname)s - %(name)s -   %(message)s" "%m/%d/%Y %H:%M:%S"
      , .mlflowLogger ""
      , .mlflowInitExperiment "train_from_scratch" "run"
      , .setAllSeeds seed
      , .deviceInit true args.local_rank use_amp
      , .tokenizerInit (data_dir ++ "/" ++ vocab_file) true
      , .processorInit data_dir train_filename none none max_seq_len
      , .dataSiloInit batch_size true
      , .lmFromScratch "bert" tok.vocab_size
      , .lmHeadInit 768 tok.vocab_size
      , .nsHeadInit [768, 2] "nextsentence"
      , .adaptiveModelInit (1 / 10) ["per_token", "per_sequence"] dev.1
      , .optimizerInit args.local_rank use_amp grad_acc true dev.1
      , .trainerCreate evaluate_every use_amp none dev.1 dev.2
      , .trainRun
      , .modelSave save_dir
      , .processorSave save_dir ] }

/-- Erase the `local_rank` argument from the device-selection and
optimizer-initialization calls only, leaving every other event — and every
other argument — untouched.  Scrubbed-trace equality would say that
`--local_rank` changes nothing beyond those two calls. -/
def Event.scrubRank : Event → Event
  | .deviceInit c _ a => .deviceInit c 0 a
  | .optimizerInit _ a g d dev => .optimizerInit 0 a g d dev
  | e => e

/-- Erase every `local_rank`-dependent argument: the rank itself at the
device-selection and optimizer-initialization calls, and the device (and
GPU count) forwarded from device selection to the optimizer-initialization,
model-construction and trainer calls. -/
def Event.scrubDevice : Event → Event
  | .deviceInit c _ a => .deviceInit c 0 a
  | .optimizerInit _ a g d _ => .optimizerInit 0 a g d .cudaDefault
  | .adaptiveModelInit dr ot _ => .adaptiveModelInit dr ot .cudaDefault
  | .trainerCreate e a c _ _ => .trainerCreate e a c .cudaDefault 1
  | e => e

/-- The data the pipeline reads from the corpus file: determined by the
processor's data directory and train filename alone. -/
def dataRead (corpus : String → Option (List String)) (p : BertStyleLMProcessor) :
    Option (List String) :=
  corpus (p.data_dir ++ "/" ++ p.train_filename)

/-- The device argument received by the model-construction call. -/
def Event.devArg : Event → Option Device
  | .adaptiveModelInit _ _ d => some d
  | _ => none

/-- Counterexample to C4 as stated: at `--local_rank 0` the runs do not
agree once only the `local_rank` argument of the device-selection and
optimizer-initialization calls is erased — the model-construction call
(and likewise the trainer call) also changes, because the script forwards
the `local_rank`-dependent device (`device=device`) to it: the model is
constructed on `cuda 0` in one run and on the default device in the
other. -/
theorem local_rank_frame_counterexample :
    ¬ (train_from_scratch { local_rank := 0 } []).trace.map Event.scrubRank =
        (train_from_scratch { local_rank := -1 } []).trace.map Event.scrubRank :=
  fun h => absurd (congrArg (List.filterMap Event.devArg) h) (by decide)

/-- C4 (amended): for every integer `v`, running with `--local_rank v`
versus the default `-1` leaves the tokenizer, processor and data-pipeline
construction — and hence the data read from the corpus file — identical;
the traces agree everywhere once every `local_rank`-dependent argument is
erased, namely the rank at the device-selection and
optimizer-initialization calls and the device those calls' result forwards
to the optimizer-initialization, model-construction and trainer calls, so
only this device-dependent wiring changes. -/
theorem local_rank_changes_only_device_wiring (v : Int) (vocab : List String)
    (corpus : String → Option (List String)) :
    (train_from_scratch { local_rank := v } vocab).tokenizer =
      (train_from_scratch { local_rank := -1 } vocab).tokenizer ∧
    (train_from_scratch { local_rank := v } vocab).processor =
      (train_from_scratch { local_rank := -1 } vocab).processor ∧
    (train_from_scratch { local_rank := v } vocab).data_silo =
      (train_from_scratch { local_rank := -1 } vocab).data_silo ∧
    dataRead corpus (train_from_scratch { local_rank := v } vocab).processor =
      dataRead corpus (train_from_scratch { local_rank := -1 } vocab).processor ∧
    (train_from_scratch { local_rank := v } vocab).trace.map Event.scrubDevice =
      (train_from_scratch { local_rank := -1 } vocab).trace.map Event.scrubDevice :=
  ⟨rfl, rfl, rfl, rfl, rfl⟩

/-- Writes into the save directory: the `model.save` / `processor.save`
pair. -/
def Event.isSaveDirWrite : Event → Bool
  | .modelSave _ => true
  | .processorSave _ => true
  | _ => false

/-- C7: persistence is the final stage — across the whole run the only
writes to the save directory are the single model-save/processor-save step
targeting `save_dir`, and the trace ends with the training run immediately
followed by exactly that step. -/
theorem persistence_last_and_once (args : Args) (vocab : List String) :
    (train_from_scratch args vocab).trace.filter Event.isSaveDirWrite =
      [.modelSave save_dir, .processorSave save_dir] ∧
    (train_from_scratch args vocab).trace.drop
        ((train_from_scratch args vocab).trace.length - 3) =
      [.trainRun, .modelSave save_dir, .processorSave save_dir] :=
  ⟨rfl, rfl⟩

/-- The mixed-precision argument received by an event, for the three call
sites that consume the `use_amp` flag. -/
def Event.ampArg : Event → Option (Option String)
  | .deviceInit _ _ a => some a
  | .optimizerInit _ a _ _ _ => some a
  | .trainerCreate _ a _ _ _ => some a
  | _ => none

/-- C8: the script sets the mixed-precision flag to the inert value `None`,
and every consumer of the flag — device initialization, optimizer
initialization and the trainer — receives exactly that value, so no stage
enables mixed precision. -/
theorem amp_disabled_everywhere (args : Args) (vocab : List String) :
    use_amp = none ∧
    (train_from_scratch args vocab).trace.filterMap Event.ampArg =
      [none, none, none] :=
  ⟨rfl, rfl⟩

/-- C9: at the start of the run — right after configuring logging and
before anything else — the script opens a run record against the tracking
service at the configured tracking URI, recording experiment name
`"train_from_scratch"` and run name `"run"`. -/
theorem mlflow_run_record_at_start (args : Args) (vocab : List String) :
    (train_from_scratch args vocab).trace.take 3 =
      [ .logConfig "%(asctime)s - %(levelname)s - %(name)s -   %(message)s" "%m/%d/%Y %H:%M:%S"
      , .mlflowLogger ""
      , .mlflowInitExperiment "train_from_scratch" "run" ] :=
  rfl

/-- The `evaluate_every` argument received by an event, for the trainer
call site. -/
def Event.evalEveryArg : Event → Option Nat
  | .trainerCreate e _ _ _ _ => some e
  | _ => none

/-- C10: the processor is constructed with no dev and no test dataset
(`dev_filename = None`, `test_filename = None`) while the trainer is
nevertheless configured with periodic evaluation every 10000 steps, so the
run has no held-out dataset for its evaluation passes. -/
theorem no_dev_set_despite_evaluation (args : Args) (vocab : List String) :
    (train_from_scratch args vocab).processor.dev_filename = none ∧
    (train_from_scratch args vocab).processor.test_filename = none ∧
    (train_from_scratch args vocab).trace.filterMap Event.evalEveryArg = [10000] ∧
    evaluate_every = 10000 :=
  ⟨rfl, rfl, rfl, rfl⟩

end TrainFromScratch
